import Mathlib

/-!
# Formal model of the local credential vault backend

This file gives a shallow embedding, in Lean 4, of the security-relevant
operations of the vault backend (crypto error handling, unlock throttling,
CSRF request gate, audit meta sanitisation, entry listing, and the backup
envelope codec), together with theorems checking the specification's
sentences against the embedded code.

Conventions:
* Python byte strings are modelled as `List Nat`; only lengths and equality
  matter to the properties below.
* Python `datetime` values are modelled as `Int` (UTC seconds); `timedelta`
  addition becomes integer addition.
* Python exceptions become explicit error values (`Except`); the exception
  *class* is preserved because several claims are about which class is raised.
* Library calls that live outside the repository (AES-GCM, Argon2, HKDF,
  base64, JSON serialisation) are taken as function parameters; properties
  assumed of them (e.g. AEAD round-trip) appear as explicit hypotheses.
-/

namespace Vault

abbrev Bytes := List Nat

/-! ## ASCII string helpers

Python string operations (`str.lower`, `str.strip`, `str.split`,
`str.endswith`, substring `in`) modelled over `List Char` so that they are
kernel-computable. -/

/-- ASCII lower-casing of one character, as Python `str.lower` acts on the
ASCII range used by this program. -/
def lowerChar (c : Char) : Char :=
  if 65 ≤ c.toNat ∧ c.toNat ≤ 90 then Char.ofNat (c.toNat + 32) else c

/-- Python `s.lower()` over the characters of `s`. -/
def lowerStr (s : List Char) : List Char :=
  s.map lowerChar

/-- Python `needle in hay` (substring containment). -/
def containsSub (hay needle : List Char) : Bool :=
  (List.range (hay.length + 1)).any fun i => needle.isPrefixOf (hay.drop i)

/-- Python `s.endswith(suffix)`. -/
def endsWithL (s suffix : List Char) : Bool :=
  suffix.isPrefixOf (s.drop (s.length - suffix.length)) && decide (suffix.length ≤ s.length)

/-- Python `s.strip()`: drop leading and trailing whitespace. -/
def stripL (s : List Char) : List Char :=
  ((s.dropWhile Char.isWhitespace).reverse.dropWhile Char.isWhitespace).reverse

/-- Split a character list at every occurrence of `sep` (Python `s.split(sep)`
with a one-character separator). -/
def splitOnCharAux (sep : Char) : List Char → List Char → List (List Char)
  | [], acc => [acc.reverse]
  | c :: rest, acc =>
    if c = sep then acc.reverse :: splitOnCharAux sep rest []
    else splitOnCharAux sep rest (c :: acc)

def splitOnChar (sep : Char) (s : List Char) : List (List Char) :=
  splitOnCharAux sep s []

/-- Python `s.split(sep, 1)` restricted to what `_parse_cookies` needs:
`none` when `sep` does not occur (Python `sep not in s`), otherwise the parts
before and after the first occurrence. -/
def splitFirst (sep : Char) : List Char → Option (List Char × List Char)
  | [] => none
  | c :: rest =>
    if c = sep then some ([], rest)
    else (splitFirst sep rest).map fun p => (c :: p.1, p.2)

/-! ## Audit meta values

Python values reaching the audit writer are classified by `isinstance`;
the tag is what `_sanitize_meta` inspects.  `other` stands for any
non-scalar Python object (list, dict, ...). -/

inductive MetaValue where
  | none
  | bool (b : Bool)
  | int (n : Int)
  | float (q : Rat)
  | str (s : List Char)
  | other (tag : List Char)
deriving DecidableEq, Repr

/-- Python `isinstance(value, bool | str | int | float)` from
`_sanitize_meta`.  Note `None` is *not* one of these classes. -/
def isScalarInstance : MetaValue → Bool
  | .bool _ => true
  | .str _ => true
  | .int _ => true
  | .float _ => true
  | _ => false

/-- `FORBIDDEN_META_HINTS` from `app/audit.py`. -/
def FORBIDDEN_META_HINTS : List (List Char) :=
  ["password".data, "secret".data, "token".data, "key".data, "master".data]

/-- `any(hint in lowered for hint in FORBIDDEN_META_HINTS)` applied to
`lowered = key.lower()`. -/
def keyForbidden (key : List Char) : Bool :=
  FORBIDDEN_META_HINTS.any fun hint => containsSub (lowerStr key) hint

/-- `_sanitize_meta` from `app/audit.py`.  A Python dict is modelled as an
association list in insertion order (audit callers never repeat keys). -/
def sanitize_meta : Option (List (List Char × MetaValue)) → Option (List (List Char × MetaValue))
  | Option.none => Option.none
  | Option.some meta =>
    if meta = [] then Option.none
    else
      let sanitized := meta.filter fun kv => !keyForbidden kv.1 && isScalarInstance kv.2
      if sanitized = [] then Option.none else Option.some sanitized

/-- Scalar-or-null, the family of values claim C6 (and §4.9 of the spec)
says the sanitizer retains: bool, int, float, string, null. -/
def isScalarOrNullSpec : MetaValue → Bool
  | .bool _ => true
  | .str _ => true
  | .int _ => true
  | .float _ => true
  | .none => true
  | .other _ => false

/-- The sanitizer claim C6 describes, written from the claim's words:
forbidden-hint keys dropped, scalar *and null* values retained, empty
results stored as null. -/
def sanitizeMetaSpec : Option (List (List Char × MetaValue)) → Option (List (List Char × MetaValue))
  | Option.none => Option.none
  | Option.some meta =>
    let kept := meta.filter fun kv => !keyForbidden kv.1 && isScalarOrNullSpec kv.2
    if kept = [] then Option.none else Option.some kept

/-- Statement of claim C6 exactly as written: the audit sanitizer behaves
as `sanitizeMetaSpec` on every meta mapping. -/
def C6Claim : Prop :=
  ∀ meta, sanitize_meta meta = sanitizeMetaSpec meta

/-- An appended audit row, as `write_audit_event` stores it (`id` and `ts`
omitted: they are a fresh UUID and the current time and no claim mentions
them). -/
structure AuditEvent where
  type : List Char
  outcome : List Char
  meta : Option (List (List Char × MetaValue))
deriving DecidableEq, Repr

/-- `write_audit_event`: the record added to the transaction, with its meta
sanitised by `_sanitize_meta`. -/
def write_audit_event (type outcome : List Char)
    (meta : Option (List (List Char × MetaValue))) : AuditEvent :=
  { type := type, outcome := outcome, meta := sanitize_meta meta }

/-! ## Crypto primitives (`app/crypto.py`)

`decrypt_json` calls three external-library operations: AES-GCM open
(`AESGCM.decrypt`, failing with `InvalidTag`), UTF-8 decoding
(`bytes.decode`, failing with `UnicodeDecodeError`) and JSON parsing
(`json.loads`, failing with `JSONDecodeError`).  They are parameters of the
embedding; the function's own control flow — the length guards and the
mapping of each failure to an exception class — is the repository code under
test. -/

/-- The Python exception classes distinguishable at `decrypt_json`'s
boundary.  `CryptoIntegrityError` subclasses `ValueError`, but a plain
`ValueError` is not a `CryptoIntegrityError`; `UnicodeDecodeError` is a
third, distinct class (also under `ValueError`). -/
inductive PyExc where
  | valueError (msg : List Char)
  | cryptoIntegrityError (msg : List Char)
  | unicodeDecodeError
deriving DecidableEq, Repr

def PyExc.isCryptoIntegrityError : PyExc → Bool
  | .cryptoIntegrityError _ => true
  | _ => false

def AES_GCM_NONCE_BYTES : Nat := 12

/-- `decrypt_json(enc_key, nonce, ciphertext)` from `app/crypto.py`.
`aeadDec key nonce ct` models `AESGCM(enc_key).decrypt(nonce, ct, AAD)`
(`none` = `InvalidTag`); `utf8Dec` models `plaintext.decode("utf-8")`;
`jsonLoads` models `json.loads`.  The `try` block around `json.loads`
catches only `json.JSONDecodeError`, so a `UnicodeDecodeError` from
`bytes.decode` propagates unconverted. -/
def decrypt_json {Obj : Type}
    (aeadDec : Bytes → Bytes → Bytes → Option Bytes)
    (utf8Dec : Bytes → Option (List Char))
    (jsonLoads : List Char → Option Obj)
    (enc_key nonce ciphertext : Bytes) : Except PyExc Obj :=
  if enc_key.length ≠ 32 then
    .error (.valueError "Encryption key must be 32 bytes.".data)
  else if nonce.length ≠ AES_GCM_NONCE_BYTES then
    .error (.valueError "AES-GCM nonce must be 12 bytes.".data)
  else
    match aeadDec enc_key nonce ciphertext with
    | Option.none => .error (.cryptoIntegrityError "Ciphertext integrity check failed.".data)
    | Option.some plaintext =>
      match utf8Dec plaintext with
      | Option.none => .error .unicodeDecodeError
      | Option.some text =>
        match jsonLoads text with
        | Option.none => .error (.cryptoIntegrityError "Decrypted payload is invalid.".data)
        | Option.some obj => .ok obj

/-- `encrypt_json(enc_key, obj)` from `app/crypto.py`.  The fresh
`os.urandom(12)` nonce is passed explicitly; `canon` models
`_canonical_json` and `aeadEnc` models `AESGCM.encrypt`. -/
def encrypt_json {Obj : Type}
    (aeadEnc : Bytes → Bytes → Bytes → Bytes)
    (canon : Obj → Bytes)
    (enc_key : Bytes) (freshNonce : Bytes) (obj : Obj) : Except PyExc (Bytes × Bytes) :=
  if enc_key.length ≠ 32 then
    .error (.valueError "Encryption key must be 32 bytes.".data)
  else
    .ok (freshNonce, aeadEnc enc_key freshNonce (canon obj))

/-- Statement of claim C1 exactly as written: for every key, nonce and
ciphertext, `decrypt_json` either fails with `CryptoIntegrityError` (when
the key is not 32 bytes, the nonce is not 12 bytes, the tag fails, the
plaintext is not UTF-8, or the plaintext is not JSON) or returns the decoded
object. -/
def C1Claim : Prop :=
  ∀ (aeadDec : Bytes → Bytes → Bytes → Option Bytes)
    (utf8Dec : Bytes → Option (List Char))
    (jsonLoads : List Char → Option Unit)
    (enc_key nonce ciphertext : Bytes),
    (enc_key.length ≠ 32 ∨ nonce.length ≠ 12 ∨
        aeadDec enc_key nonce ciphertext = Option.none ∨
        (∃ pt, aeadDec enc_key nonce ciphertext = Option.some pt ∧
          (utf8Dec pt = Option.none ∨
            ∃ t, utf8Dec pt = Option.some t ∧ jsonLoads t = Option.none)) →
      ∃ msg, decrypt_json aeadDec utf8Dec jsonLoads enc_key nonce ciphertext =
        .error (.cryptoIntegrityError msg)) ∧
    (∀ pt t obj, enc_key.length = 32 → nonce.length = 12 →
      aeadDec enc_key nonce ciphertext = Option.some pt →
      utf8Dec pt = Option.some t → jsonLoads t = Option.some obj →
      decrypt_json aeadDec utf8Dec jsonLoads enc_key nonce ciphertext = .ok obj)

/-! ## Vault unlock (`app/routes/vault.py`) -/

/-- The persisted `UnlockThrottleRecord` singleton (`id = 1` and
`updated_at` omitted). -/
structure ThrottleRow where
  failed_attempts : Nat
  next_allowed_at : Option Int
deriving DecidableEq, Repr

/-- `_get_or_create_unlock_throttle`: the row read from the store, or a
fresh `(failed_attempts := 0, next_allowed_at := None)` row. -/
def _get_or_create_unlock_throttle : Option ThrottleRow → ThrottleRow
  | Option.none => { failed_attempts := 0, next_allowed_at := Option.none }
  | Option.some t => t

/-- The `VaultMetadata` singleton, restricted to the fields `vault_unlock`
reads. -/
structure VaultMetadataRow where
  pw_verifier : Option (List Char)
  argon2_salt : Option Bytes
  argon2_memory_cost : Option Nat
  argon2_time_cost : Option Nat
  argon2_parallelism : Option Nat
deriving DecidableEq, Repr

/-- Python truthiness of an optional string (`not metadata.pw_verifier`,
`if export_password:`, ...). -/
def truthyStr : Option (List Char) → Bool
  | Option.none => false
  | Option.some s => s ≠ []

/-- `AppError(code, message, status_code)` from `app/errors.py`. -/
structure AppError where
  code : List Char
  message : List Char
  status_code : Nat
deriving DecidableEq, Repr

/-- What one `POST /vault/unlock` request leaves behind: the HTTP outcome,
the throttle row as committed (unchanged input row when the handler never
wrote it), the audit events committed, and whether a session was created
(cookies set). -/
structure UnlockResult where
  response : Except AppError Unit
  throttle : Option ThrottleRow
  audit : List AuditEvent
  sessionCreated : Bool
deriving Repr

/-- The tail of `vault_unlock` past the throttle gate: verify the password,
then either bump the throttle and fail `UNAUTHORIZED`, or reset the throttle
and create a session. -/
def unlockVerifyStep (throttle : ThrottleRow) (now : Int) (password verifier : List Char)
    (verify_password : List Char → List Char → Bool) : UnlockResult :=
  let verified := verify_password password verifier
  if ¬ verified then
    let failed_attempts := throttle.failed_attempts + 1
    let delay_seconds : Nat := min 300 (2 ^ min failed_attempts 8)
    let throttle' : ThrottleRow :=
      { failed_attempts := failed_attempts
        next_allowed_at := Option.some (now + delay_seconds) }
    { response := .error ⟨"UNAUTHORIZED".data, "Unlock failed.".data, 401⟩
      throttle := Option.some throttle'
      audit := [write_audit_event "VAULT_UNLOCK".data "FAILURE".data
        (Option.some [("failed_attempts".data, .int failed_attempts),
          ("delay_seconds".data, .int delay_seconds)])]
      sessionCreated := false }
  else
    let throttle' : ThrottleRow :=
      { failed_attempts := 0, next_allowed_at := Option.none }
    { response := .ok ()
      throttle := Option.some throttle'
      audit := [write_audit_event "VAULT_UNLOCK".data "SUCCESS".data Option.none]
      sessionCreated := true }

/-- `vault_unlock` from `app/routes/vault.py`.  `now` is
`datetime.now(UTC)` in seconds; `verify_password pw verifier` is the Argon2
verifier call (external library).  Key derivation on the success path only
feeds the created session and is abstracted to the `sessionCreated` flag. -/
def vault_unlock (metadata : Option VaultMetadataRow) (throttle0 : Option ThrottleRow)
    (now : Int) (password : List Char)
    (verify_password : List Char → List Char → Bool) : UnlockResult :=
  match metadata with
  | Option.none =>
    { response := .error ⟨"VAULT_NOT_INITIALIZED".data, "Vault not initialized.".data, 400⟩
      throttle := throttle0
      audit := [write_audit_event "VAULT_UNLOCK".data "FAILURE".data
        (Option.some [("reason".data, .str "vault_missing".data)])]
      sessionCreated := false }
  | Option.some m =>
    if ¬ truthyStr m.pw_verifier then
      { response := .error ⟨"VAULT_NOT_INITIALIZED".data, "Vault not initialized.".data, 400⟩
        throttle := throttle0
        audit := [write_audit_event "VAULT_UNLOCK".data "FAILURE".data
          (Option.some [("reason".data, .str "vault_missing".data)])]
        sessionCreated := false }
    else if m.argon2_salt = Option.none ∨ m.argon2_memory_cost = Option.none ∨
        m.argon2_time_cost = Option.none ∨ m.argon2_parallelism = Option.none then
      { response := .error ⟨"VAULT_INVALID".data, "Vault unavailable.".data, 500⟩
        throttle := throttle0
        audit := []
        sessionCreated := false }
    else
      let throttle := _get_or_create_unlock_throttle throttle0
      match throttle.next_allowed_at with
      | Option.some next_allowed =>
        if now < next_allowed then
          let retry_after_seconds : Int := max 1 (next_allowed - now)
          { response := .error ⟨"RATE_LIMITED".data, "Too many attempts. Try again later.".data, 429⟩
            throttle := Option.some throttle
            audit := [write_audit_event "VAULT_UNLOCK".data "FAILURE".data
              (Option.some [("reason".data, .str "throttled".data),
                ("retry_after_seconds".data, .int retry_after_seconds)])]
            sessionCreated := false }
        else
          unlockVerifyStep throttle now password ((m.pw_verifier).getD []) verify_password
      | Option.none =>
        unlockVerifyStep throttle now password ((m.pw_verifier).getD []) verify_password

/-- The spec's throttle-row invariant: `failed_attempts == 0 ⇔
next_allowed_at is null`. -/
def throttleInv (t : ThrottleRow) : Prop :=
  t.failed_attempts = 0 ↔ t.next_allowed_at = Option.none

/-! ## Request gate (`app/middleware.py`) -/

/-- Python-dict lookup on an association list where later writes win (every
dict in the middleware is only ever read through `.get`). -/
def dget {β : Type} (d : List (List Char × β)) (k : List Char) : Option β :=
  (d.reverse.find? fun kv => decide (kv.1 = k)).map fun kv => kv.2

def STATE_CHANGING_METHODS : List (List Char) :=
  ["POST".data, "PUT".data, "DELETE".data, "PATCH".data]

def CSRF_EXEMPT_PATHS : List (List Char) :=
  ["/vault/setup".data, "/vault/unlock".data, "/health".data, "/openapi.json".data,
    "/docs".data, "/docs/oauth2-redirect".data, "/redoc".data]

def SESSION_COOKIE_NAME : List Char := "session_token".data
def CSRF_COOKIE_NAME : List Char := "csrf_token".data

/-- `_parse_cookies` from `app/middleware.py`: split the raw `Cookie` header
on `;`, skip chunks that are empty or contain no `=`, split each remaining
chunk at its first `=`, and strip both sides. -/
def _parse_cookies (raw : List Char) : List (List Char × List Char) :=
  if raw = [] then []
  else
    (splitOnChar ';' raw).foldl
      (fun result item =>
        let chunk := stripL item
        if chunk = [] then result
        else
          match splitFirst '=' chunk with
          | Option.none => result
          | Option.some (key, value) => result ++ [(stripL key, stripL value)])
      []

/-- The slice of an in-memory `SessionData` that the CSRF gate consults. -/
structure StoreSession where
  csrf_token : List Char
deriving DecidableEq, Repr

/-- Outcome of `CSRFMiddleware.__call__`: forward to the inner app, or
answer directly with an error envelope. -/
inductive GateOutcome where
  | pass
  | reject (status : Nat) (code : List Char) (message : List Char)
deriving DecidableEq, Repr

/-- `{k.decode("latin1").lower(): v.decode("latin1") for k, v in headers_raw}`. -/
def lowerHeaders (headers_raw : List (List Char × List Char)) : List (List Char × List Char) :=
  headers_raw.map fun kv => (lowerStr kv.1, kv.2)

/-- The cookie dict a request carries, as both the middleware and the
`vault_lock` handler read it from the raw `Cookie` header. -/
def requestCookies (headers_raw : List (List Char × List Char)) : List (List Char × List Char) :=
  _parse_cookies ((dget (lowerHeaders headers_raw) "cookie".data).getD [])

/-- `CSRFMiddleware` from `app/middleware.py`.  `headers_raw` is the ASGI
header list; `get_session` models `session_store.get_session` (idle-expired
or unknown tokens yield `none`). -/
def csrf_gate (method path : List Char) (headers_raw : List (List Char × List Char))
    (get_session : List Char → Option StoreSession) : GateOutcome :=
  if method = "OPTIONS".data ∨ method ∉ STATE_CHANGING_METHODS ∨ path ∈ CSRF_EXEMPT_PATHS then
    .pass
  else if ¬ truthyStr (dget (requestCookies headers_raw) SESSION_COOKIE_NAME) then
    .reject 401 "UNAUTHORIZED".data "Authentication required.".data
  else
    match get_session ((dget (requestCookies headers_raw) SESSION_COOKIE_NAME).getD []) with
    | Option.none => .reject 401 "UNAUTHORIZED".data "Authentication required.".data
    | Option.some session =>
      if ¬ truthyStr (dget (requestCookies headers_raw) CSRF_COOKIE_NAME) ∨
          ¬ truthyStr (dget (lowerHeaders headers_raw) "x-csrf-token".data) then
        .reject 403 "CSRF_INVALID".data "Request not allowed.".data
      else if dget (requestCookies headers_raw) CSRF_COOKIE_NAME ≠
            dget (lowerHeaders headers_raw) "x-csrf-token".data ∨
          session.csrf_token ≠ (dget (lowerHeaders headers_raw) "x-csrf-token".data).getD [] then
        .reject 403 "CSRF_INVALID".data "Request not allowed.".data
      else
        .pass

/-! ## Vault lock (`vault_lock` composed with the middleware) -/

/-- `SessionStore.destroy_session`. -/
def store_destroy (store : List (List Char × StoreSession)) (token : Option (List Char)) :
    List (List Char × StoreSession) :=
  if ¬ truthyStr token then store
  else store.filter fun kv => decide (kv.1 ≠ token.getD [])

/-- What one `POST /vault/lock` request leaves behind. -/
structure LockResult where
  status : Nat
  errorCode : Option (List Char)
  store : List (List Char × StoreSession)
  cookiesCleared : Bool
  audit : List AuditEvent
deriving DecidableEq, Repr

/-- A full `POST /vault/lock` request: `CSRFMiddleware` first (the path is
*not* in `CSRF_EXEMPT_PATHS`), then the `vault_lock` handler, which destroys
any session named by the cookie, clears both cookies, audits
`VAULT_LOCK SUCCESS` and answers 204. -/
def lock_request (store : List (List Char × StoreSession))
    (headers_raw : List (List Char × List Char)) : LockResult :=
  match csrf_gate "POST".data "/vault/lock".data headers_raw (fun tok => dget store tok) with
  | .reject status code _ =>
    { status := status, errorCode := Option.some code, store := store,
      cookiesCleared := false, audit := [] }
  | .pass =>
    let session_token := dget (requestCookies headers_raw) SESSION_COOKIE_NAME
    { status := 204
      errorCode := Option.none
      store := store_destroy store session_token
      cookiesCleared := true
      audit := [write_audit_event "VAULT_LOCK".data "SUCCESS".data Option.none] }

/-- Statement of claim C7 exactly as written (its leading assertion): every
`POST /vault/lock` request, whatever the session registry and the request
headers hold, succeeds with HTTP 204. -/
def C7Claim : Prop :=
  ∀ (store : List (List Char × StoreSession)) (headers_raw : List (List Char × List Char)),
    (lock_request store headers_raw).status = 204

/-! ## Entry listing (`app/routes/entries.py`) -/

/-- A decrypted, validated `Entry` (`app/schemas.py`).  `updatedAt` is UTC
seconds. -/
structure EntryM where
  id : List Char
  title : List Char
  url : Option (List Char)
  username : List Char
  password : List Char
  notes : Option (List Char)
  tags : List (List Char)
  favorite : Bool
  updatedAt : Int
deriving DecidableEq, Repr

/-- `EntrySummary` (`app/schemas.py`): exactly the fields
`id, title, username, url, favorite, updatedAt`. -/
structure EntrySummaryM where
  id : List Char
  title : List Char
  username : List Char
  url : Option (List Char)
  favorite : Bool
  updatedAt : Int
deriving DecidableEq, Repr

/-- `_to_summary` from `app/routes/entries.py`. -/
def _to_summary (entry : EntryM) : EntrySummaryM :=
  { id := entry.id, title := entry.title, username := entry.username,
    url := entry.url, favorite := entry.favorite, updatedAt := entry.updatedAt }

/-- The JSON object a summary serialises to (pydantic dumps the declared
fields of `EntrySummary`, in declaration order). -/
def summaryJson (s : EntrySummaryM) : List (List Char × MetaValue) :=
  [("id".data, .str s.id),
   ("title".data, .str s.title),
   ("username".data, .str s.username),
   ("url".data, match s.url with | Option.some u => .str u | Option.none => .none),
   ("favorite".data, .bool s.favorite),
   ("updatedAt".data, .int s.updatedAt)]

/-- A persisted `EntryRecord` row. -/
structure EncRow where
  id : List Char
  nonce : Bytes
  ciphertext : Bytes
  updated_at : Int
deriving DecidableEq, Repr

/-- How a request handler aborts: a raised `AppError` (shaped by
`app_error_handler`) or an unhandled Python exception (shaped by
`unhandled_exception_handler` as 500 INTERNAL_ERROR). -/
inductive HandlerAbort where
  | app (e : AppError)
  | unhandled (e : PyExc)
deriving DecidableEq, Repr

/-- `_decrypt_entry` from `app/routes/entries.py`: `decrypt_json` with
`CryptoIntegrityError` mapped to `AppError ENTRY_UNAVAILABLE 500`, then
`Entry.model_validate` with any exception mapped the same way.
`validateEntry` models `Entry.model_validate`. -/
def _decrypt_entry {Obj : Type}
    (aeadDec : Bytes → Bytes → Bytes → Option Bytes)
    (utf8Dec : Bytes → Option (List Char))
    (jsonLoads : List Char → Option Obj)
    (validateEntry : Obj → Option EntryM)
    (enc_key : Bytes) (row : EncRow) : Except HandlerAbort EntryM :=
  match decrypt_json aeadDec utf8Dec jsonLoads enc_key row.nonce row.ciphertext with
  | .error (.cryptoIntegrityError _) =>
    .error (.app ⟨"ENTRY_UNAVAILABLE".data, "Entry unavailable.".data, 500⟩)
  | .error e => .error (.unhandled e)
  | .ok payload =>
    match validateEntry payload with
    | Option.none => .error (.app ⟨"ENTRY_UNAVAILABLE".data, "Entry unavailable.".data, 500⟩)
    | Option.some entry => .ok entry

/-- The `for row in rows: entries.append(_decrypt_entry(...))` loop; the
first failure aborts the request. -/
def decryptAllRows {Obj : Type}
    (aeadDec : Bytes → Bytes → Bytes → Option Bytes)
    (utf8Dec : Bytes → Option (List Char))
    (jsonLoads : List Char → Option Obj)
    (validateEntry : Obj → Option EntryM)
    (enc_key : Bytes) : List EncRow → Except HandlerAbort (List EntryM)
  | [] => .ok []
  | row :: rest => do
    let entry ← _decrypt_entry aeadDec utf8Dec jsonLoads validateEntry enc_key row
    let entries ← decryptAllRows aeadDec utf8Dec jsonLoads validateEntry enc_key rest
    .ok (entry :: entries)

/-- Descending order on `updatedAt`: `entries.sort(key=..., reverse=True)`. -/
def updatedAtDesc (a b : EntryM) : Prop := b.updatedAt ≤ a.updatedAt

instance : DecidableRel updatedAtDesc := fun a b => Int.decLe b.updatedAt a.updatedAt

instance : IsTotal EntryM updatedAtDesc := ⟨fun a b => Int.le_total b.updatedAt a.updatedAt⟩

instance : IsTrans EntryM updatedAtDesc := ⟨fun _ _ _ h h' => le_trans h' h⟩

/-- `list_entries` from `app/routes/entries.py`: decrypt every row, sort by
`updatedAt` descending (Python's stable sort, modelled by insertion sort),
map to summaries, and commit an `ENTRY_LIST SUCCESS` audit event. -/
def list_entries {Obj : Type}
    (aeadDec : Bytes → Bytes → Bytes → Option Bytes)
    (utf8Dec : Bytes → Option (List Char))
    (jsonLoads : List Char → Option Obj)
    (validateEntry : Obj → Option EntryM)
    (enc_key : Bytes) (rows : List EncRow) :
    Except HandlerAbort (List EntrySummaryM × List AuditEvent) := do
  let entries ← decryptAllRows aeadDec utf8Dec jsonLoads validateEntry enc_key rows
  let sorted := List.insertionSort updatedAtDesc entries
  let summaries := sorted.map _to_summary
  .ok (summaries,
    [write_audit_event "ENTRY_LIST".data "SUCCESS".data
      (Option.some [("count".data, .int summaries.length)])])

/-! ## Backup envelope codec (`app/backup.py`)

`Obj` is the type of parsed JSON objects and `B64` the type of base64
strings; AES-GCM, Argon2, HKDF, base64 and the pydantic bundle codec are
the external-library parameters gathered in `BackupLib`. -/

structure KDFParamsM where
  memoryCost : Nat
  timeCost : Nat
  parallelism : Nat
deriving DecidableEq, Repr

def DEFAULT_ARGON2_PARAMS : KDFParamsM :=
  { memoryCost := 65536, timeCost := 3, parallelism := 4 }

/-- `SettingsModel` / the singleton settings row (same three fields). -/
structure SettingsM where
  autoLockMinutes : Nat
  clipboardClearSeconds : Nat
  requireReauthForCopy : Bool
deriving DecidableEq, Repr

/-- `BackupBundle`: the plaintext of the envelope's `export` payload. -/
structure BundleM where
  entries : List EntryM
  settings : SettingsM
  exportedAt : Int
deriving DecidableEq, Repr

/-- `BackupEnvelope` (strict JSON model, unknown keys rejected by pydantic
before this structure is built). -/
structure EnvelopeM (B64 : Type) where
  version : Nat
  createdAt : Int
  kdfParams : Option KDFParamsM
  salt : Option B64
  exportNonce : B64
  exportCiphertext : B64
  note : List Char
deriving Repr

/-- The external-library surface used by `app/backup.py`. -/
structure BackupLib (Obj B64 : Type) where
  /-- `argon2.low_level.hash_secret_raw` (output is `hash_len = 32` bytes). -/
  kdfRaw : List Char → Bytes → KDFParamsM → Bytes
  /-- HKDF-SHA256, 32 bytes, keyed by `info` context. -/
  hkdf : Bytes → List Char → Bytes
  /-- `AESGCM.encrypt` with the fixed AAD. -/
  aeadEnc : Bytes → Bytes → Bytes → Bytes
  /-- `AESGCM.decrypt` with the fixed AAD; `none` is `InvalidTag`. -/
  aeadDec : Bytes → Bytes → Bytes → Option Bytes
  /-- `_canonical_json` (UTF-8 bytes of the sorted-keys JSON dump). -/
  canonJson : Obj → Bytes
  /-- `bytes.decode("utf-8")`. -/
  utf8Dec : Bytes → Option (List Char)
  /-- `json.loads`. -/
  jsonLoads : List Char → Option Obj
  /-- `base64.b64encode`. -/
  b64e : Bytes → B64
  /-- strict `base64.b64decode(validate=True)`. -/
  b64d : B64 → Option Bytes
  /-- `BackupBundle.model_dump(mode="json")`. -/
  dumpBundle : BundleM → Obj
  /-- `BackupBundle.model_validate`. -/
  validateBundle : Obj → Option BundleM

/-- `derive_master_key_raw` from `app/crypto.py` (password length 12–128 and
salt length ≥ 16 enforced before calling Argon2). -/
def derive_master_key_raw {Obj B64 : Type} (lib : BackupLib Obj B64)
    (password : List Char) (salt : Bytes) (params : KDFParamsM) : Except PyExc Bytes :=
  if ¬ (12 ≤ password.length ∧ password.length ≤ 128) then
    .error (.valueError "Master password must be between 12 and 128 characters.".data)
  else if salt.length < 16 then
    .error (.valueError "Argon2 salt must be at least 16 bytes.".data)
  else
    .ok (lib.kdfRaw password salt params)

/-- `_derive_key`/`derive_backup_key` from `app/crypto.py`:
HKDF with the `"vault/backup_key/v1"` context, after a 32-byte check. -/
def derive_backup_key {Obj B64 : Type} (lib : BackupLib Obj B64)
    (master_key : Bytes) : Except PyExc Bytes :=
  if master_key.length ≠ 32 then
    .error (.valueError "Master key must be 32 bytes.".data)
  else
    .ok (lib.hkdf master_key "vault/backup_key/v1".data)

/-- `_b64decode` from `app/backup.py`: strict decode, any failure becomes
`ValueError("Invalid backup encoding.")`. -/
def _b64decode {Obj B64 : Type} (lib : BackupLib Obj B64) (value : B64) : Except PyExc Bytes :=
  match lib.b64d value with
  | Option.some b => .ok b
  | Option.none => .error (.valueError "Invalid backup encoding.".data)

/-- `build_backup_envelope` from `app/backup.py`.  The fresh salt
(`generate_argon2_salt`, 16 bytes) and fresh AEAD nonce (`os.urandom(12)`)
are explicit inputs; `now` stands for both `exportedAt` and `createdAt`. -/
def build_backup_envelope {Obj B64 : Type} (lib : BackupLib Obj B64)
    (entries : List EntryM) (settings : SettingsM)
    (session_enc_key : Bytes) (export_password : Option (List Char))
    (freshSalt freshNonce : Bytes) (now : Int) : Except PyExc (EnvelopeM B64) := do
  if session_enc_key.length ≠ 32 then
    .error (.valueError "Session key unavailable.".data)
  else
    let bundle : BundleM := { entries := entries, settings := settings, exportedAt := now }
    let keyed : Bytes × Option KDFParamsM × Option B64 ←
      if truthyStr export_password then do
        let salt := freshSalt
        let master ← derive_master_key_raw lib (export_password.getD []) salt DEFAULT_ARGON2_PARAMS
        let backup_key ← derive_backup_key lib master
        pure (backup_key, Option.some DEFAULT_ARGON2_PARAMS, Option.some (lib.b64e salt))
      else
        pure (session_enc_key, Option.none, Option.none)
    let encrypted ← encrypt_json lib.aeadEnc lib.canonJson keyed.1 freshNonce (lib.dumpBundle bundle)
    pure { version := 1
           createdAt := now
           kdfParams := keyed.2.1
           salt := keyed.2.2
           exportNonce := lib.b64e encrypted.1
           exportCiphertext := lib.b64e encrypted.2
           note := "encrypted-only".data }

/-- `_resolve_import_key` from `app/backup.py`. -/
def _resolve_import_key {Obj B64 : Type} (lib : BackupLib Obj B64)
    (envelope : EnvelopeM B64) (session_enc_key : Bytes)
    (import_password : Option (List Char)) : Except PyExc Bytes :=
  match envelope.kdfParams, envelope.salt with
  | Option.none, Option.none => .ok session_enc_key
  | Option.none, Option.some _ => .error (.valueError "Invalid backup file.".data)
  | Option.some _, Option.none => .error (.valueError "Invalid backup file.".data)
  | Option.some kp, Option.some salt64 =>
    if ¬ truthyStr import_password then
      .error (.valueError "Import password required.".data)
    else do
      let salt ← _b64decode lib salt64
      let master ← derive_master_key_raw lib (import_password.getD []) salt kp
      derive_backup_key lib master

/-- `load_backup_bundle` from `app/backup.py`: resolve the key, strict
base64-decode nonce and ciphertext, `decrypt_json` (its
`CryptoIntegrityError` becomes `ValueError("Backup decryption failed.")`),
and validate the bundle. -/
def load_backup_bundle {Obj B64 : Type} (lib : BackupLib Obj B64)
    (envelope : EnvelopeM B64) (session_enc_key : Bytes)
    (import_password : Option (List Char)) : Except PyExc BundleM := do
  let key ← _resolve_import_key lib envelope session_enc_key import_password
  let nonce ← _b64decode lib envelope.exportNonce
  let ciphertext ← _b64decode lib envelope.exportCiphertext
  match decrypt_json lib.aeadDec lib.utf8Dec lib.jsonLoads key nonce ciphertext with
  | .error (.cryptoIntegrityError _) => .error (.valueError "Backup decryption failed.".data)
  | .error e => .error e
  | .ok decrypted =>
    match lib.validateBundle decrypted with
    | Option.none => .error (.valueError "Invalid backup file.".data)
    | Option.some bundle => .ok bundle

/-! ## Backup import endpoints (`app/routes/backup.py`) -/

/-- `BackupImportPreviewResponse` (HTTP 200 body of both import
endpoints). -/
structure PreviewResponse where
  added : Nat
  updated : Nat
  skipped : Nat
  errors : List (List Char)
deriving DecidableEq, Repr

/-- The store state an import endpoint can touch. -/
structure DbState where
  entries : List EncRow
  settings : Option SettingsM
  audit : List AuditEvent
deriving DecidableEq, Repr

/-- `_compute_import_summary` from `app/routes/backup.py` (the `errors`
list it returns is always empty).  Timestamps are already UTC ints, which
absorbs the naive-datetime normalisation. -/
def _compute_import_summary (existing : List EncRow) (incoming : List EntryM) :
    Nat × Nat × Nat × List (List Char) :=
  let existing_map := existing.map fun row => (row.id, row)
  let counts := incoming.foldl
    (fun acc inc =>
      match dget existing_map inc.id with
      | Option.none => (acc.1 + 1, acc.2.1, acc.2.2)
      | Option.some row =>
        if inc.updatedAt > row.updated_at then (acc.1, acc.2.1 + 1, acc.2.2)
        else (acc.1, acc.2.1, acc.2.2 + 1))
    ((0 : Nat), (0 : Nat), (0 : Nat))
  (counts.1, counts.2.1, counts.2.2, [])

/-- `not file.filename or not file.filename.lower().endswith(".json")`. -/
def invalidBackupFilename (filename : Option (List Char)) : Bool :=
  !truthyStr filename || !endsWithL (lowerStr (filename.getD [])) ".json".data

/-- `preview_import_backup` from `app/routes/backup.py`, for an unlocked
session.  `parseEnv` models `parse_backup_json` over the uploaded bytes and
`loadBundle` models `load_backup_bundle` (both only reached when the
filename check passes).  Returns the HTTP-200 response body and the store
state as committed. -/
def preview_import_backup {Env : Type} (db : DbState)
    (filename : Option (List Char)) (content : Bytes) (password : Option (List Char))
    (parseEnv : Bytes → Except PyExc Env)
    (loadBundle : Env → Option (List Char) → Except PyExc BundleM) :
    PreviewResponse × DbState :=
  if invalidBackupFilename filename then
    ({ added := 0, updated := 0, skipped := 0, errors := ["Invalid backup file.".data] },
      { db with audit := db.audit ++ [write_audit_event "BACKUP_IMPORT_PREVIEW".data "FAILURE".data
        (Option.some [("reason".data, .str "invalid_file_extension".data)])] })
  else
    match parseEnv content with
    | .error _ =>
      ({ added := 0, updated := 0, skipped := 0, errors := ["Invalid backup file.".data] },
        { db with audit := db.audit ++ [write_audit_event "BACKUP_IMPORT_PREVIEW".data "FAILURE".data
          (Option.some [("reason".data, .str "invalid_file".data)])] })
    | .ok envelope =>
      match loadBundle envelope password with
      | .error _ =>
        ({ added := 0, updated := 0, skipped := 0, errors := ["Invalid backup file.".data] },
          { db with audit := db.audit ++ [write_audit_event "BACKUP_IMPORT_PREVIEW".data "FAILURE".data
            (Option.some [("reason".data, .str "decrypt_failed".data)])] })
      | .ok bundle =>
        let summary := _compute_import_summary db.entries bundle.entries
        ({ added := summary.1, updated := summary.2.1, skipped := summary.2.2.1,
            errors := summary.2.2.2 },
          { db with audit := db.audit ++ [write_audit_event "BACKUP_IMPORT_PREVIEW".data
            (if summary.2.2.2 = [] then "SUCCESS".data else "FAILURE".data)
            (Option.some [("added".data, .int summary.1), ("updated".data, .int summary.2.1),
              ("skipped".data, .int summary.2.2.1),
              ("errors".data, .int summary.2.2.2.length)])] })

/-- The entry-merge loop of `apply_import_backup`: lookups go through the
`existing_map` captured before the loop; `encryptEntry` models
`encrypt_json(session.enc_key, incoming.model_dump(mode="json"))` returning
the fresh `(nonce, ciphertext)`. -/
def applyEntriesLoop (existing_map : List (List Char × EncRow))
    (encryptEntry : EntryM → Bytes × Bytes) (entries0 : List EncRow)
    (incoming : List EntryM) : List EncRow :=
  incoming.foldl
    (fun entries inc =>
      let encrypted := encryptEntry inc
      match dget existing_map inc.id with
      | Option.none =>
        entries ++ [⟨inc.id, encrypted.1, encrypted.2, inc.updatedAt⟩]
      | Option.some row =>
        if inc.updatedAt > row.updated_at then
          entries.map fun r =>
            if r.id = row.id then ⟨r.id, encrypted.1, encrypted.2, inc.updatedAt⟩ else r
        else entries)
    entries0

/-- `apply_import_backup` from `app/routes/backup.py`, for an unlocked
session: the same filename/parse/decrypt gates as preview, then the
summary, the merge loop, the settings overwrite and a SUCCESS audit event
in one transaction. -/
def apply_import_backup {Env : Type} (db : DbState)
    (filename : Option (List Char)) (content : Bytes) (password : Option (List Char))
    (parseEnv : Bytes → Except PyExc Env)
    (loadBundle : Env → Option (List Char) → Except PyExc BundleM)
    (encryptEntry : EntryM → Bytes × Bytes) :
    PreviewResponse × DbState :=
  if invalidBackupFilename filename then
    ({ added := 0, updated := 0, skipped := 0, errors := ["Invalid backup file.".data] },
      { db with audit := db.audit ++ [write_audit_event "BACKUP_IMPORT_APPLY".data "FAILURE".data
        (Option.some [("reason".data, .str "invalid_file_extension".data)])] })
  else
    match (parseEnv content).bind (fun envelope => loadBundle envelope password) with
    | .error _ =>
      ({ added := 0, updated := 0, skipped := 0, errors := ["Invalid backup file.".data] },
        { db with audit := db.audit ++ [write_audit_event "BACKUP_IMPORT_APPLY".data "FAILURE".data
          (Option.some [("reason".data, .str "invalid_file".data)])] })
    | .ok bundle =>
      let summary := _compute_import_summary db.entries bundle.entries
      if summary.2.2.2 ≠ [] then
        ({ added := summary.1, updated := summary.2.1, skipped := summary.2.2.1,
            errors := summary.2.2.2 },
          { db with audit := db.audit ++ [write_audit_event "BACKUP_IMPORT_APPLY".data "FAILURE".data
            (Option.some [("added".data, .int summary.1), ("updated".data, .int summary.2.1),
              ("skipped".data, .int summary.2.2.1),
              ("errors".data, .int summary.2.2.2.length)])] })
      else
        let existing_map := db.entries.map fun row => (row.id, row)
        let entries' := applyEntriesLoop existing_map encryptEntry db.entries bundle.entries
        ({ added := summary.1, updated := summary.2.1, skipped := summary.2.2.1, errors := [] },
          { entries := entries'
            settings := Option.some bundle.settings
            audit := db.audit ++ [write_audit_event "BACKUP_IMPORT_APPLY".data "SUCCESS".data
              (Option.some [("added".data, .int summary.1), ("updated".data, .int summary.2.1),
                ("skipped".data, .int summary.2.2.1), ("errors".data, .int 0)])] })

/-! # Theorems -/

/-! ## C6 — audit meta sanitisation -/

/-- C6, as stated, is false: `_sanitize_meta` keeps only
`isinstance(value, bool | str | int | float)` values, so a null value is
dropped, not retained — on `{"a": None}` the code stores null (the map
emptied), while the claim keeps the pair. -/
theorem C6_counterexample : ¬ C6Claim := by
  intro h
  have h1 := h (Option.some [("a".data, MetaValue.none)])
  revert h1
  decide

/-- C6 amended: in `_sanitize_meta`, keys whose lowercase form contains a
forbidden hint are dropped and only bool, int, float and string values are
retained — null values are dropped like non-scalars — and a meta mapping
that is empty, or empty after filtering, is stored as null. -/
theorem C6_sanitize_meta_amended (meta : List (List Char × MetaValue)) :
    (sanitize_meta (Option.some meta) = Option.none ↔
      meta.filter (fun kv => !keyForbidden kv.1 && isScalarInstance kv.2) = []) ∧
    (meta.filter (fun kv => !keyForbidden kv.1 && isScalarInstance kv.2) ≠ [] →
      sanitize_meta (Option.some meta) =
        Option.some (meta.filter (fun kv => !keyForbidden kv.1 && isScalarInstance kv.2))) ∧
    (∀ kv, kv ∈ meta.filter (fun kv => !keyForbidden kv.1 && isScalarInstance kv.2) ↔
      kv ∈ meta ∧ keyForbidden kv.1 = false ∧ isScalarInstance kv.2 = true) ∧
    sanitize_meta Option.none = Option.none := by
  refine ⟨?_, ?_, ?_, rfl⟩
  · by_cases hm : meta = []
    · subst hm; simp [sanitize_meta]
    · simp only [sanitize_meta, hm, if_false]
      split
      next h => exact iff_of_true rfl h
      next h => exact iff_of_false (by simp) h
  · intro hne
    have hm : meta ≠ [] := by
      intro h; rw [h] at hne; simp at hne
    simp only [sanitize_meta, hm, if_false, hne, ite_false]
  · intro kv
    simp [List.mem_filter, Bool.and_eq_true, Bool.not_eq_true']

/-- Witness for `C6_sanitize_meta_amended` at a concrete meta mapping:
an allowed scalar pair survives, a forbidden-hint key (`api_key`) and a
null value (`note`) are dropped. -/
theorem C6_sanitize_meta_amended_witness :
    sanitize_meta (Option.some
      [("ok".data, MetaValue.int 1), ("api_key".data, MetaValue.str "x".data),
        ("note".data, MetaValue.none)]) =
      Option.some [("ok".data, MetaValue.int 1)] :=
  (C6_sanitize_meta_amended
    [("ok".data, MetaValue.int 1), ("api_key".data, MetaValue.str "x".data),
      ("note".data, MetaValue.none)]).2.1 (by decide)

/-! ## C1 — `decrypt_json` error handling -/

/-- C1, as stated, is false: a key that is not 32 bytes makes
`decrypt_json` raise a plain `ValueError` (the guard at the top of the
function), not a `CryptoIntegrityError`; shown here on the empty key. -/
theorem C1_counterexample : ¬ C1Claim := by
  intro h
  obtain ⟨msg, hmsg⟩ :=
    (h (fun _ _ _ => Option.some []) (fun _ => Option.some []) (fun _ => Option.some ())
      [] (List.replicate 12 0) []).1 (Or.inl (by decide))
  simp [decrypt_json] at hmsg

/-- C1 amended: `decrypt_json` raises a plain `ValueError` when the key is
not 32 bytes or the nonce is not 12 bytes; `CryptoIntegrityError` when the
AEAD tag does not verify, or when the plaintext decodes as UTF-8 but is not
valid JSON; an (uncaught) `UnicodeDecodeError` when the authenticated
plaintext is not valid UTF-8 — only `json.JSONDecodeError` is converted;
and otherwise returns the decoded JSON object. -/
theorem C1_decrypt_json_error_classes {Obj : Type}
    (aeadDec : Bytes → Bytes → Bytes → Option Bytes)
    (utf8Dec : Bytes → Option (List Char))
    (jsonLoads : List Char → Option Obj)
    (enc_key nonce ciphertext : Bytes) :
    (enc_key.length ≠ 32 →
      decrypt_json aeadDec utf8Dec jsonLoads enc_key nonce ciphertext =
        .error (.valueError "Encryption key must be 32 bytes.".data)) ∧
    (enc_key.length = 32 → nonce.length ≠ 12 →
      decrypt_json aeadDec utf8Dec jsonLoads enc_key nonce ciphertext =
        .error (.valueError "AES-GCM nonce must be 12 bytes.".data)) ∧
    (enc_key.length = 32 → nonce.length = 12 →
      aeadDec enc_key nonce ciphertext = Option.none →
      decrypt_json aeadDec utf8Dec jsonLoads enc_key nonce ciphertext =
        .error (.cryptoIntegrityError "Ciphertext integrity check failed.".data)) ∧
    (∀ pt, enc_key.length = 32 → nonce.length = 12 →
      aeadDec enc_key nonce ciphertext = Option.some pt → utf8Dec pt = Option.none →
      decrypt_json aeadDec utf8Dec jsonLoads enc_key nonce ciphertext =
        .error .unicodeDecodeError) ∧
    (∀ pt t, enc_key.length = 32 → nonce.length = 12 →
      aeadDec enc_key nonce ciphertext = Option.some pt → utf8Dec pt = Option.some t →
      jsonLoads t = Option.none →
      decrypt_json aeadDec utf8Dec jsonLoads enc_key nonce ciphertext =
        .error (.cryptoIntegrityError "Decrypted payload is invalid.".data)) ∧
    (∀ pt t obj, enc_key.length = 32 → nonce.length = 12 →
      aeadDec enc_key nonce ciphertext = Option.some pt → utf8Dec pt = Option.some t →
      jsonLoads t = Option.some obj →
      decrypt_json aeadDec utf8Dec jsonLoads enc_key nonce ciphertext = .ok obj) := by
  refine ⟨fun hk => ?_, fun hk hn => ?_, fun hk hn ha => ?_,
    fun pt hk hn ha hu => ?_, fun pt t hk hn ha hu hj => ?_, fun pt t obj hk hn ha hu hj => ?_⟩
  · simp [decrypt_json, hk]
  · simp [decrypt_json, hk, AES_GCM_NONCE_BYTES, hn]
  · simp [decrypt_json, hk, AES_GCM_NONCE_BYTES, hn, ha]
  · simp [decrypt_json, hk, AES_GCM_NONCE_BYTES, hn, ha, hu]
  · simp [decrypt_json, hk, AES_GCM_NONCE_BYTES, hn, ha, hu, hj]
  · simp [decrypt_json, hk, AES_GCM_NONCE_BYTES, hn, ha, hu, hj]

/-- Witness for `C1_decrypt_json_error_classes`: with well-formed key and
nonce, an authenticated plaintext the UTF-8 decoder rejects surfaces as
`UnicodeDecodeError`, not as `CryptoIntegrityError`. -/
theorem C1_decrypt_json_error_classes_witness :
    decrypt_json (fun _ _ _ => Option.some [255]) (fun _ => (Option.none : Option (List Char)))
      (fun _ => (Option.none : Option Unit)) (List.replicate 32 0) (List.replicate 12 0) [] =
      .error .unicodeDecodeError :=
  (C1_decrypt_json_error_classes (fun _ _ _ => Option.some [255])
    (fun _ => (Option.none : Option (List Char))) (fun _ => (Option.none : Option Unit))
    (List.replicate 32 0) (List.replicate 12 0) []).2.2.2.1 [255]
    (by decide) (by decide) rfl rfl

/-! ## C2 / C4 / C9 — unlock throttling -/

/-- Helper: on an initialized vault with the throttle gate open,
`vault_unlock` reaches the password-verification step. -/
theorem vault_unlock_not_throttled_eq (m : VaultMetadataRow) (throttle0 : Option ThrottleRow)
    (now : Int) (password : List Char) (verify_password : List Char → List Char → Bool)
    (hv : truthyStr m.pw_verifier = true)
    (hs : m.argon2_salt ≠ Option.none) (hmc : m.argon2_memory_cost ≠ Option.none)
    (htc : m.argon2_time_cost ≠ Option.none) (hpl : m.argon2_parallelism ≠ Option.none)
    (hnt : ∀ na, (_get_or_create_unlock_throttle throttle0).next_allowed_at = Option.some na →
      ¬ now < na) :
    vault_unlock (Option.some m) throttle0 now password verify_password =
      unlockVerifyStep (_get_or_create_unlock_throttle throttle0) now password
        ((m.pw_verifier).getD []) verify_password := by
  cases hna : (_get_or_create_unlock_throttle throttle0).next_allowed_at with
  | none => simp [vault_unlock, hv, hs, hmc, htc, hpl, hna]
  | some na =>
    have hge := hnt na hna
    simp [vault_unlock, hv, hs, hmc, htc, hpl, hna, hge]

/-- C2: an unthrottled unlock attempt on an initialized vault either fails
`UNAUTHORIZED` with the throttle row bumped to
`(n+1, now + min(300, 2^min(n+1, 8)))`, or succeeds with the throttle row
reset to `(0, null)`. -/
theorem C2_vault_unlock_attempt (m : VaultMetadataRow) (throttle0 : Option ThrottleRow)
    (now : Int) (password : List Char) (verify_password : List Char → List Char → Bool)
    (hv : truthyStr m.pw_verifier = true)
    (hs : m.argon2_salt ≠ Option.none) (hmc : m.argon2_memory_cost ≠ Option.none)
    (htc : m.argon2_time_cost ≠ Option.none) (hpl : m.argon2_parallelism ≠ Option.none)
    (hnt : ∀ na, (_get_or_create_unlock_throttle throttle0).next_allowed_at = Option.some na →
      ¬ now < na) :
    (verify_password password ((m.pw_verifier).getD []) = false →
      (vault_unlock (Option.some m) throttle0 now password verify_password).response =
        .error ⟨"UNAUTHORIZED".data, "Unlock failed.".data, 401⟩ ∧
      (vault_unlock (Option.some m) throttle0 now password verify_password).throttle =
        Option.some
          ⟨(_get_or_create_unlock_throttle throttle0).failed_attempts + 1,
            Option.some (now +
              (min 300 (2 ^ min ((_get_or_create_unlock_throttle throttle0).failed_attempts + 1) 8)
                : Nat))⟩) ∧
    (verify_password password ((m.pw_verifier).getD []) = true →
      (vault_unlock (Option.some m) throttle0 now password verify_password).response = .ok () ∧
      (vault_unlock (Option.some m) throttle0 now password verify_password).throttle =
        Option.some ⟨0, Option.none⟩) := by
  rw [vault_unlock_not_throttled_eq m throttle0 now password verify_password hv hs hmc htc hpl hnt]
  constructor
  · intro hverify
    simp [unlockVerifyStep, hverify]
  · intro hverify
    simp [unlockVerifyStep, hverify]

/-- Witness for `C2_vault_unlock_attempt`: first failed attempt on a fresh
throttle row at `now = 0` bumps the row to `(1, 2)` (a 2-second delay) and
returns 401; a verifying attempt resets the row to `(0, null)`. -/
theorem C2_vault_unlock_attempt_witness :
    (vault_unlock
        (Option.some ⟨Option.some "v".data, Option.some (List.replicate 16 0),
          Option.some 65536, Option.some 3, Option.some 4⟩)
        (Option.some ⟨0, Option.none⟩) 0 "pw".data (fun _ _ => false)).throttle =
      Option.some ⟨1, Option.some 2⟩ ∧
    (vault_unlock
        (Option.some ⟨Option.some "v".data, Option.some (List.replicate 16 0),
          Option.some 65536, Option.some 3, Option.some 4⟩)
        (Option.some ⟨0, Option.none⟩) 0 "pw".data (fun _ _ => true)).throttle =
      Option.some ⟨0, Option.none⟩ := by
  refine ⟨?_, ?_⟩
  · have h := (C2_vault_unlock_attempt
      ⟨Option.some "v".data, Option.some (List.replicate 16 0),
        Option.some 65536, Option.some 3, Option.some 4⟩
      (Option.some ⟨0, Option.none⟩) 0 "pw".data (fun _ _ => false)
      (by decide) (by decide) (by decide) (by decide) (by decide)
      (fun na hna => Option.noConfusion hna)).1 rfl
    exact h.2.trans (by decide)
  · have h := (C2_vault_unlock_attempt
      ⟨Option.some "v".data, Option.some (List.replicate 16 0),
        Option.some 65536, Option.some 3, Option.some 4⟩
      (Option.some ⟨0, Option.none⟩) 0 "pw".data (fun _ _ => true)
      (by decide) (by decide) (by decide) (by decide) (by decide)
      (fun na hna => Option.noConfusion hna)).2 rfl
    exact h.2

/-- C4: an unlock attempt while `now < next_allowed_at` is rejected
`RATE_LIMITED` (429), leaves the throttle row unchanged, commits exactly
one `VAULT_UNLOCK FAILURE` audit event carrying only the throttle state
(`reason`, `retry_after_seconds`), creates no session, and produces the
same outcome whatever the password and the password verifier — the
verifier is never consulted and the password is never recorded. -/
theorem C4_vault_unlock_throttled (m : VaultMetadataRow) (throttle0 : Option ThrottleRow)
    (now : Int) (password : List Char) (verify_password : List Char → List Char → Bool)
    (na : Int)
    (hv : truthyStr m.pw_verifier = true)
    (hs : m.argon2_salt ≠ Option.none) (hmc : m.argon2_memory_cost ≠ Option.none)
    (htc : m.argon2_time_cost ≠ Option.none) (hpl : m.argon2_parallelism ≠ Option.none)
    (hna : (_get_or_create_unlock_throttle throttle0).next_allowed_at = Option.some na)
    (hlt : now < na) :
    (vault_unlock (Option.some m) throttle0 now password verify_password).response =
      .error ⟨"RATE_LIMITED".data, "Too many attempts. Try again later.".data, 429⟩ ∧
    (vault_unlock (Option.some m) throttle0 now password verify_password).throttle =
      Option.some (_get_or_create_unlock_throttle throttle0) ∧
    (vault_unlock (Option.some m) throttle0 now password verify_password).audit =
      [⟨"VAULT_UNLOCK".data, "FAILURE".data,
        Option.some [("reason".data, .str "throttled".data),
          ("retry_after_seconds".data, .int (max 1 (na - now)))]⟩] ∧
    (vault_unlock (Option.some m) throttle0 now password verify_password).sessionCreated = false ∧
    (∀ (password' : List Char) (verify' : List Char → List Char → Bool),
      vault_unlock (Option.some m) throttle0 now password' verify' =
        vault_unlock (Option.some m) throttle0 now password verify_password) := by
  have hrun : ∀ (pw : List Char) (vf : List Char → List Char → Bool),
      vault_unlock (Option.some m) throttle0 now pw vf =
        { response := .error ⟨"RATE_LIMITED".data, "Too many attempts. Try again later.".data, 429⟩
          throttle := Option.some (_get_or_create_unlock_throttle throttle0)
          audit := [write_audit_event "VAULT_UNLOCK".data "FAILURE".data
            (Option.some [("reason".data, .str "throttled".data),
              ("retry_after_seconds".data, .int (max 1 (na - now)))])]
          sessionCreated := false } := by
    intro pw vf
    simp [vault_unlock, hv, hs, hmc, htc, hpl, hna, hlt]
  have haudit : write_audit_event "VAULT_UNLOCK".data "FAILURE".data
      (Option.some [("reason".data, .str "throttled".data),
        ("retry_after_seconds".data, .int (max 1 (na - now)))]) =
      ⟨"VAULT_UNLOCK".data, "FAILURE".data,
        Option.some [("reason".data, .str "throttled".data),
          ("retry_after_seconds".data, .int (max 1 (na - now)))]⟩ := by
    have h1 : keyForbidden "reason".data = false := by decide
    have h2 : keyForbidden "retry_after_seconds".data = false := by decide
    simp [write_audit_event, sanitize_meta, List.filter, h1, h2, isScalarInstance]
  refine ⟨?_, ?_, ?_, ?_, ?_⟩
  · rw [hrun password verify_password]
  · rw [hrun password verify_password]
  · rw [hrun password verify_password]; simp [haudit]
  · rw [hrun password verify_password]
  · intro password' verify'
    rw [hrun password' verify', hrun password verify_password]

/-- Witness for `C4_vault_unlock_throttled`: with the row at
`(2, next_allowed_at = 100)` and `now = 50`, any attempt is rejected 429
with the row unchanged, and swapping the verifier (or password) does not
change the outcome. -/
theorem C4_vault_unlock_throttled_witness :
    (vault_unlock
        (Option.some ⟨Option.some "v".data, Option.some (List.replicate 16 0),
          Option.some 65536, Option.some 3, Option.some 4⟩)
        (Option.some ⟨2, Option.some 100⟩) 50 "pw".data (fun _ _ => false)).response =
      .error ⟨"RATE_LIMITED".data, "Too many attempts. Try again later.".data, 429⟩ ∧
    vault_unlock
        (Option.some ⟨Option.some "v".data, Option.some (List.replicate 16 0),
          Option.some 65536, Option.some 3, Option.some 4⟩)
        (Option.some ⟨2, Option.some 100⟩) 50 "other".data (fun _ _ => true) =
      vault_unlock
        (Option.some ⟨Option.some "v".data, Option.some (List.replicate 16 0),
          Option.some 65536, Option.some 3, Option.some 4⟩)
        (Option.some ⟨2, Option.some 100⟩) 50 "pw".data (fun _ _ => false) := by
  have h := C4_vault_unlock_throttled
    ⟨Option.some "v".data, Option.some (List.replicate 16 0),
      Option.some 65536, Option.some 3, Option.some 4⟩
    (Option.some ⟨2, Option.some 100⟩) 50 "pw".data (fun _ _ => false) 100
    (by decide) (by decide) (by decide) (by decide) (by decide) rfl (by decide)
  exact ⟨h.1, h.2.2.2.2 "other".data (fun _ _ => true)⟩

/-- Helper: the freshly created throttle row and every row written by
`unlockVerifyStep` satisfy the invariant. -/
theorem unlockVerifyStep_throttle_inv (throttle : ThrottleRow) (now : Int)
    (password verifier : List Char) (verify_password : List Char → List Char → Bool)
    (t' : ThrottleRow)
    (ht' : (unlockVerifyStep throttle now password verifier verify_password).throttle =
      Option.some t') : throttleInv t' := by
  by_cases hverify : verify_password password verifier = true
  · simp [unlockVerifyStep, hverify] at ht'
    subst ht'
    simp [throttleInv]
  · simp [unlockVerifyStep, hverify] at ht'
    subst ht'
    simp [throttleInv]

/-- C9: the throttle-row invariant `failed_attempts == 0 ⇔ next_allowed_at
is null` holds for the freshly created row and is preserved by every write
`vault_unlock` performs (creation, failed-attempt bump, successful
reset). -/
theorem C9_throttle_invariant :
    throttleInv (_get_or_create_unlock_throttle Option.none) ∧
    (∀ (metadata : Option VaultMetadataRow) (throttle0 : Option ThrottleRow) (now : Int)
      (password : List Char) (verify_password : List Char → List Char → Bool),
      (∀ t, throttle0 = Option.some t → throttleInv t) →
      ∀ t', (vault_unlock metadata throttle0 now password verify_password).throttle =
        Option.some t' → throttleInv t') := by
  have hfresh : ∀ throttle0, (∀ t, throttle0 = Option.some t → throttleInv t) →
      throttleInv (_get_or_create_unlock_throttle throttle0) := by
    intro throttle0 h
    cases throttle0 with
    | none => simp [_get_or_create_unlock_throttle, throttleInv]
    | some t => exact h t rfl
  refine ⟨by simp [_get_or_create_unlock_throttle, throttleInv], ?_⟩
  intro metadata throttle0 now password verify_password h t' ht'
  cases metadata with
  | none =>
    simp [vault_unlock] at ht'
    exact h t' ht'
  | some m =>
    by_cases hv : truthyStr m.pw_verifier = true
    · by_cases hvalid : m.argon2_salt = Option.none ∨ m.argon2_memory_cost = Option.none ∨
        m.argon2_time_cost = Option.none ∨ m.argon2_parallelism = Option.none
      · simp [vault_unlock, hv, hvalid] at ht'
        exact h t' ht'
      · cases hna : (_get_or_create_unlock_throttle throttle0).next_allowed_at with
        | none =>
          simp [vault_unlock, hv, hvalid, hna] at ht'
          exact unlockVerifyStep_throttle_inv _ now password _ verify_password t' ht'
        | some na =>
          by_cases hlt : now < na
          · simp [vault_unlock, hv, hvalid, hna, hlt] at ht'
            rw [← ht']
            exact hfresh throttle0 h
          · simp [vault_unlock, hv, hvalid, hna, hlt] at ht'
            exact unlockVerifyStep_throttle_inv _ now password _ verify_password t' ht'
    · simp [vault_unlock, hv] at ht'
      exact h t' ht'

/-- Witness for `C9_throttle_invariant`: a failed attempt from the
invariant-satisfying row `(1, 5)` at `now = 10` writes `(2, 14)`, which
satisfies the invariant. -/
theorem C9_throttle_invariant_witness : throttleInv ⟨2, Option.some 14⟩ :=
  C9_throttle_invariant.2
    (Option.some ⟨Option.some "v".data, Option.some (List.replicate 16 0),
      Option.some 65536, Option.some 3, Option.some 4⟩)
    (Option.some ⟨1, Option.some 5⟩) 10 "pw".data (fun _ _ => false)
    (by rintro t ht; cases ht; simp [throttleInv]) ⟨2, Option.some 14⟩ (by decide)

/-! ## C5 — CSRF request gate -/

/-- C5: on a state-changing method to a non-exempt path, the gate answers
401 UNAUTHORIZED when no session is resolved from the session cookie
(cookie absent/empty, or the registry does not know the token); otherwise
403 CSRF_INVALID when the CSRF cookie or the `X-CSRF-Token` header is
missing/empty, when the two differ, or when the header differs from the
session's stored CSRF token; and passes the request through only when
cookie, header and stored token are all present and equal. -/
theorem C5_csrf_gate (method path : List Char)
    (headers_raw : List (List Char × List Char))
    (get_session : List Char → Option StoreSession)
    (hm : method ∈ STATE_CHANGING_METHODS) (hp : path ∉ CSRF_EXEMPT_PATHS) :
    (truthyStr (dget (requestCookies headers_raw) SESSION_COOKIE_NAME) = false →
      csrf_gate method path headers_raw get_session =
        .reject 401 "UNAUTHORIZED".data "Authentication required.".data) ∧
    (truthyStr (dget (requestCookies headers_raw) SESSION_COOKIE_NAME) = true →
      get_session ((dget (requestCookies headers_raw) SESSION_COOKIE_NAME).getD []) =
        Option.none →
      csrf_gate method path headers_raw get_session =
        .reject 401 "UNAUTHORIZED".data "Authentication required.".data) ∧
    (∀ sess, truthyStr (dget (requestCookies headers_raw) SESSION_COOKIE_NAME) = true →
      get_session ((dget (requestCookies headers_raw) SESSION_COOKIE_NAME).getD []) =
        Option.some sess →
      (truthyStr (dget (requestCookies headers_raw) CSRF_COOKIE_NAME) = false ∨
        truthyStr (dget (lowerHeaders headers_raw) "x-csrf-token".data) = false) →
      csrf_gate method path headers_raw get_session =
        .reject 403 "CSRF_INVALID".data "Request not allowed.".data) ∧
    (∀ sess, truthyStr (dget (requestCookies headers_raw) SESSION_COOKIE_NAME) = true →
      get_session ((dget (requestCookies headers_raw) SESSION_COOKIE_NAME).getD []) =
        Option.some sess →
      truthyStr (dget (requestCookies headers_raw) CSRF_COOKIE_NAME) = true →
      truthyStr (dget (lowerHeaders headers_raw) "x-csrf-token".data) = true →
      (dget (requestCookies headers_raw) CSRF_COOKIE_NAME ≠
          dget (lowerHeaders headers_raw) "x-csrf-token".data ∨
        sess.csrf_token ≠ (dget (lowerHeaders headers_raw) "x-csrf-token".data).getD []) →
      csrf_gate method path headers_raw get_session =
        .reject 403 "CSRF_INVALID".data "Request not allowed.".data) ∧
    (∀ sess, truthyStr (dget (requestCookies headers_raw) SESSION_COOKIE_NAME) = true →
      get_session ((dget (requestCookies headers_raw) SESSION_COOKIE_NAME).getD []) =
        Option.some sess →
      truthyStr (dget (requestCookies headers_raw) CSRF_COOKIE_NAME) = true →
      truthyStr (dget (lowerHeaders headers_raw) "x-csrf-token".data) = true →
      dget (requestCookies headers_raw) CSRF_COOKIE_NAME =
        dget (lowerHeaders headers_raw) "x-csrf-token".data →
      sess.csrf_token = (dget (lowerHeaders headers_raw) "x-csrf-token".data).getD [] →
      csrf_gate method path headers_raw get_session = .pass) := by
  have hopt : ¬ method = "OPTIONS".data := by
    simp only [STATE_CHANGING_METHODS, List.mem_cons, List.not_mem_nil, or_false] at hm
    rcases hm with rfl | rfl | rfl | rfl <;> decide
  refine ⟨fun hst => ?_, fun hst hgs => ?_, fun sess hst hgs hcsrf => ?_,
    fun sess hst hgs hcc hch hne => ?_, fun sess hst hgs hcc hch heq hcs => ?_⟩
  · simp [csrf_gate, hopt, hm, hp, hst]
  · simp [csrf_gate, hopt, hm, hp, hst, hgs]
  · rcases hcsrf with hcsrf | hcsrf <;>
      simp [csrf_gate, hopt, hm, hp, hst, hgs, hcsrf]
  · rcases hne with hne | hne <;>
      simp [csrf_gate, hopt, hm, hp, hst, hgs, hcc, hch, hne]
  · simp [csrf_gate, hopt, hm, hp, hst, hgs, hcc, hch, heq, hcs]

/-- Witness for `C5_csrf_gate`: a POST to `/entries` with matching session
cookie, CSRF cookie, `X-CSRF-Token` header and stored token passes the
gate. -/
theorem C5_csrf_gate_witness :
    csrf_gate "POST".data "/entries".data
      [("Cookie".data, "session_token=t; csrf_token=c".data),
        ("X-CSRF-Token".data, "c".data)]
      (fun tok => if tok = "t".data then Option.some ⟨"c".data⟩ else Option.none) = .pass :=
  (C5_csrf_gate "POST".data "/entries".data
    [("Cookie".data, "session_token=t; csrf_token=c".data),
      ("X-CSRF-Token".data, "c".data)]
    (fun tok => if tok = "t".data then Option.some ⟨"c".data⟩ else Option.none)
    (by decide) (by decide)).2.2.2.2 ⟨"c".data⟩
    (by decide) (by decide) (by decide) (by decide) (by decide) (by decide)

/-! ## C7 — vault lock -/

/-- Helper: the CSRF gate only ever passes, rejects with 401, or rejects
with 403. -/
theorem csrf_gate_statuses (method path : List Char)
    (headers_raw : List (List Char × List Char))
    (get_session : List Char → Option StoreSession) :
    csrf_gate method path headers_raw get_session = .pass ∨
    (∃ c msg, csrf_gate method path headers_raw get_session = .reject 401 c msg) ∨
    (∃ c msg, csrf_gate method path headers_raw get_session = .reject 403 c msg) := by
  unfold csrf_gate
  split
  · exact Or.inl rfl
  · split
    · exact Or.inr (Or.inl ⟨_, _, rfl⟩)
    · split
      · exact Or.inr (Or.inl ⟨_, _, rfl⟩)
      · split
        · exact Or.inr (Or.inr ⟨_, _, rfl⟩)
        · split
          · exact Or.inr (Or.inr ⟨_, _, rfl⟩)
          · exact Or.inl rfl

/-- C7, as stated, is false: `/vault/lock` is not in `CSRF_EXEMPT_PATHS`,
so a `POST /vault/lock` without a resolvable session is answered 401 by the
CSRF middleware and never reaches the handler — shown here on a request
with no cookies against an empty session registry. -/
theorem C7_counterexample : ¬ C7Claim := fun h => absurd (h [] []) (by decide)

/-- C7 amended: a `POST /vault/lock` request that passes the CSRF gate
always succeeds with 204 — the session named by the cookie is destroyed,
both cookies are cleared, and a `VAULT_LOCK SUCCESS` audit event is
committed; the handler itself has no error response.  A request that does
not pass the gate is answered 401 or 403 by the middleware (because
`/vault/lock` is not CSRF-exempt), so every lock request ends in
204, 401 or 403. -/
theorem C7_vault_lock_amended (store : List (List Char × StoreSession))
    (headers_raw : List (List Char × List Char)) :
    (csrf_gate "POST".data "/vault/lock".data headers_raw (fun tok => dget store tok) = .pass →
      lock_request store headers_raw =
        { status := 204
          errorCode := Option.none
          store := store_destroy store (dget (requestCookies headers_raw) SESSION_COOKIE_NAME)
          cookiesCleared := true
          audit := [⟨"VAULT_LOCK".data, "SUCCESS".data, Option.none⟩] }) ∧
    ((lock_request store headers_raw).status = 204 ∨
      (lock_request store headers_raw).status = 401 ∨
      (lock_request store headers_raw).status = 403) := by
  constructor
  · intro hpass
    simp [lock_request, hpass, write_audit_event, sanitize_meta]
  · rcases csrf_gate_statuses "POST".data "/vault/lock".data headers_raw
      (fun tok => dget store tok) with h | ⟨c, msg, h⟩ | ⟨c, msg, h⟩ <;>
      simp [lock_request, h]

/-- Witness for `C7_vault_lock_amended`: a lock request carrying a valid
session and matching CSRF double-submit is answered 204, the session is
removed from the registry, and `VAULT_LOCK SUCCESS` is audited. -/
theorem C7_vault_lock_amended_witness :
    lock_request [("t".data, ⟨"c".data⟩)]
      [("cookie".data, "session_token=t; csrf_token=c".data),
        ("x-csrf-token".data, "c".data)] =
      { status := 204, errorCode := Option.none, store := [], cookiesCleared := true,
        audit := [⟨"VAULT_LOCK".data, "SUCCESS".data, Option.none⟩] } :=
  ((C7_vault_lock_amended [("t".data, ⟨"c".data⟩)]
    [("cookie".data, "session_token=t; csrf_token=c".data),
      ("x-csrf-token".data, "c".data)]).1 (by decide)).trans (by decide)

/-! ## C8 — entry listing -/

/-- C8: when every stored record decrypts, `GET /entries` returns the
summaries of all decrypted entries sorted by `updatedAt` descending, and
every summary serialises to exactly the fields
`id, title, username, url, favorite, updatedAt` — in particular neither
`password` nor `notes` appears. -/
theorem C8_list_entries {Obj : Type}
    (aeadDec : Bytes → Bytes → Bytes → Option Bytes)
    (utf8Dec : Bytes → Option (List Char))
    (jsonLoads : List Char → Option Obj)
    (validateEntry : Obj → Option EntryM)
    (enc_key : Bytes) (rows : List EncRow) (entries : List EntryM)
    (hdec : decryptAllRows aeadDec utf8Dec jsonLoads validateEntry enc_key rows = .ok entries) :
    list_entries aeadDec utf8Dec jsonLoads validateEntry enc_key rows =
      .ok ((List.insertionSort updatedAtDesc entries).map _to_summary,
        [write_audit_event "ENTRY_LIST".data "SUCCESS".data
          (Option.some [("count".data,
            .int (((List.insertionSort updatedAtDesc entries).map _to_summary).length : Int))])]) ∧
    List.Sorted (fun a b => b.updatedAt ≤ a.updatedAt)
      ((List.insertionSort updatedAtDesc entries).map _to_summary) ∧
    ((List.insertionSort updatedAtDesc entries).map _to_summary).Perm
      (entries.map _to_summary) ∧
    (∀ s : EntrySummaryM,
      (summaryJson s).map Prod.fst =
        ["id".data, "title".data, "username".data, "url".data, "favorite".data,
          "updatedAt".data] ∧
      "password".data ∉ (summaryJson s).map Prod.fst ∧
      "notes".data ∉ (summaryJson s).map Prod.fst) := by
  refine ⟨?_, ?_, ?_, ?_⟩
  · simp only [list_entries, hdec]
    rfl
  · have hs := List.sorted_insertionSort updatedAtDesc entries
    rw [List.Sorted, List.pairwise_map]
    exact hs.imp fun h => h
  · exact List.Perm.map _to_summary (List.perm_insertionSort updatedAtDesc entries)
  · intro s
    have hk : (summaryJson s).map Prod.fst =
        ["id".data, "title".data, "username".data, "url".data, "favorite".data,
          "updatedAt".data] := rfl
    exact ⟨hk, by rw [hk]; decide, by rw [hk]; decide⟩

/-- Witness for `C8_list_entries`: two records decrypt to entries with
`updatedAt` 1 and 2; the listing returns their summaries newest-first with
a `count = 2` audit event. -/
theorem C8_list_entries_witness :
    list_entries (fun _ _ ct => Option.some ct)
      (fun b => Option.some (b.map fun n => Char.ofNat n))
      (fun t => Option.some
        (⟨t, "T".data, Option.none, "u".data, "p".data, Option.none, [], false,
          (t.length : Int)⟩ : EntryM))
      Option.some (List.replicate 32 0)
      [⟨"a".data, List.replicate 12 0, [65], 0⟩, ⟨"b".data, List.replicate 12 0, [66, 67], 0⟩] =
      .ok ([⟨['B', 'C'], "T".data, "u".data, Option.none, false, 2⟩,
            ⟨['A'], "T".data, "u".data, Option.none, false, 1⟩],
        [⟨"ENTRY_LIST".data, "SUCCESS".data,
          Option.some [("count".data, .int 2)]⟩]) :=
  ((C8_list_entries (fun _ _ ct => Option.some ct)
    (fun b => Option.some (b.map fun n => Char.ofNat n))
    (fun t => Option.some
      (⟨t, "T".data, Option.none, "u".data, "p".data, Option.none, [], false,
        (t.length : Int)⟩ : EntryM))
    Option.some (List.replicate 32 0)
    [⟨"a".data, List.replicate 12 0, [65], 0⟩, ⟨"b".data, List.replicate 12 0, [66, 67], 0⟩]
    [⟨['A'], "T".data, Option.none, "u".data, "p".data, Option.none, [], false, 1⟩,
      ⟨['B', 'C'], "T".data, Option.none, "u".data, "p".data, Option.none, [], false, 2⟩]
    rfl).1).trans (by rfl)

/-! ## C10 — import filename gate -/

/-- C10: an import preview/apply upload whose filename is missing or does
not end case-insensitively in `.json` is answered HTTP 200 with
`added = updated = skipped = 0` and `errors = ["Invalid backup file."]`;
entries and settings are untouched and only a FAILURE audit event (reason
`invalid_file_extension`) is committed; and the outcome is independent of
the file contents and of the parse/decrypt/encrypt machinery — the file is
never read. -/
theorem C10_import_invalid_filename {Env : Type} (db : DbState)
    (filename : Option (List Char)) (content : Bytes) (password : Option (List Char))
    (parseEnv : Bytes → Except PyExc Env)
    (loadBundle : Env → Option (List Char) → Except PyExc BundleM)
    (encryptEntry : EntryM → Bytes × Bytes)
    (hbad : invalidBackupFilename filename = true) :
    preview_import_backup db filename content password parseEnv loadBundle =
      (⟨0, 0, 0, ["Invalid backup file.".data]⟩,
        ⟨db.entries, db.settings, db.audit ++
          [⟨"BACKUP_IMPORT_PREVIEW".data, "FAILURE".data,
            Option.some [("reason".data, .str "invalid_file_extension".data)]⟩]⟩) ∧
    apply_import_backup db filename content password parseEnv loadBundle encryptEntry =
      (⟨0, 0, 0, ["Invalid backup file.".data]⟩,
        ⟨db.entries, db.settings, db.audit ++
          [⟨"BACKUP_IMPORT_APPLY".data, "FAILURE".data,
            Option.some [("reason".data, .str "invalid_file_extension".data)]⟩]⟩) ∧
    (∀ (Env' : Type) (content' : Bytes) (parse' : Bytes → Except PyExc Env')
        (load' : Env' → Option (List Char) → Except PyExc BundleM)
        (encrypt' : EntryM → Bytes × Bytes),
      preview_import_backup db filename content' password parse' load' =
        preview_import_backup db filename content password parseEnv loadBundle ∧
      apply_import_backup db filename content' password parse' load' encrypt' =
        apply_import_backup db filename content password parseEnv loadBundle encryptEntry) := by
  have hsan : sanitize_meta
      (Option.some [("reason".data, MetaValue.str "invalid_file_extension".data)]) =
      Option.some [("reason".data, MetaValue.str "invalid_file_extension".data)] := by decide
  refine ⟨?_, ?_, ?_⟩
  · simp [preview_import_backup, hbad, write_audit_event, hsan]
  · simp [apply_import_backup, hbad, write_audit_event, hsan]
  · intro Env' content' parse' load' encrypt'
    constructor
    · simp [preview_import_backup, hbad]
    · simp [apply_import_backup, hbad]

/-- Witness for `C10_import_invalid_filename`: uploading `backup.txt`
against an empty store yields the zero-count error body and only the
FAILURE audit event. -/
theorem C10_import_invalid_filename_witness :
    preview_import_backup (⟨[], Option.none, []⟩ : DbState)
      (Option.some "backup.txt".data) [1, 2, 3] Option.none
      (fun _ => (.error .unicodeDecodeError : Except PyExc Unit))
      (fun _ _ => .error .unicodeDecodeError) =
      (⟨0, 0, 0, ["Invalid backup file.".data]⟩,
        ⟨[], Option.none,
          [⟨"BACKUP_IMPORT_PREVIEW".data, "FAILURE".data,
            Option.some [("reason".data, .str "invalid_file_extension".data)]⟩]⟩) :=
  ((C10_import_invalid_filename (⟨[], Option.none, []⟩ : DbState)
    (Option.some "backup.txt".data) [1, 2, 3] Option.none
    (fun _ => (.error .unicodeDecodeError : Except PyExc Unit))
    (fun _ _ => .error .unicodeDecodeError) (fun _ => ([], []))
    (by decide)).1).trans (by decide)

/-! ## C3 — backup round trip -/

/-- C3: loading the envelope produced by `build_backup_envelope` returns
the original entries and settings — with the same session key when no
export password was supplied (both `kdfParams` and `salt` null), or with
the same password under the KDF parameters and salt recorded in the
envelope.  The AEAD, base64 and bundle-codec round trips, the 32-byte
output lengths of Argon2/HKDF, the 12-byte freshness of the nonce, the
16-byte salt and the 12–128 password-length window (all properties of the
external libraries or of upstream validation) are explicit hypotheses. -/
theorem C3_backup_roundtrip {Obj B64 : Type} (lib : BackupLib Obj B64)
    (entries : List EntryM) (settings : SettingsM) (session_enc_key : Bytes)
    (export_password : Option (List Char)) (freshSalt freshNonce : Bytes) (now : Int)
    (hk : session_enc_key.length = 32)
    (hkdf32 : ∀ p s prm, (lib.kdfRaw p s prm).length = 32)
    (hhk32 : ∀ ikm info, (lib.hkdf ikm info).length = 32)
    (haead : ∀ k n p, lib.aeadDec k n (lib.aeadEnc k n p) = Option.some p)
    (hb64 : ∀ b, lib.b64d (lib.b64e b) = Option.some b)
    (hnonce : freshNonce.length = 12)
    (hsalt : freshSalt.length = 16)
    (hpwlen : ∀ p, export_password = Option.some p → p ≠ [] →
      12 ≤ p.length ∧ p.length ≤ 128)
    (hjson : (lib.utf8Dec (lib.canonJson (lib.dumpBundle ⟨entries, settings, now⟩))).bind
      lib.jsonLoads = Option.some (lib.dumpBundle ⟨entries, settings, now⟩))
    (hval : lib.validateBundle (lib.dumpBundle ⟨entries, settings, now⟩) =
      Option.some ⟨entries, settings, now⟩) :
    (build_backup_envelope lib entries settings session_enc_key export_password
        freshSalt freshNonce now).bind
      (fun envelope => load_backup_bundle lib envelope session_enc_key export_password) =
      .ok ⟨entries, settings, now⟩ := by
  have hdec : ∀ (key : Bytes), key.length = 32 →
      decrypt_json lib.aeadDec lib.utf8Dec lib.jsonLoads key freshNonce
        (lib.aeadEnc key freshNonce (lib.canonJson (lib.dumpBundle ⟨entries, settings, now⟩))) =
        .ok (lib.dumpBundle ⟨entries, settings, now⟩) := by
    intro key hkey
    cases hu : lib.utf8Dec (lib.canonJson (lib.dumpBundle ⟨entries, settings, now⟩)) with
    | none => rw [hu] at hjson; simp at hjson
    | some t =>
      rw [hu] at hjson
      simp only [Option.some_bind] at hjson
      simp [decrypt_json, hkey, AES_GCM_NONCE_BYTES, hnonce, haead, hu, hjson]
  have hload : ∀ (env : EnvelopeM B64) (pw : Option (List Char)) (key : Bytes),
      _resolve_import_key lib env session_enc_key pw = .ok key → key.length = 32 →
      lib.b64d env.exportNonce = Option.some freshNonce →
      lib.b64d env.exportCiphertext = Option.some
        (lib.aeadEnc key freshNonce
          (lib.canonJson (lib.dumpBundle ⟨entries, settings, now⟩))) →
      load_backup_bundle lib env session_enc_key pw = .ok ⟨entries, settings, now⟩ := by
    intro env pw key hres hkey hn hc
    simp [load_backup_bundle, _b64decode, hres, hn, hc, Except.instMonad, Except.bind,
      hdec key hkey, hval]
  have hplain : ∀ pw, truthyStr pw = false →
      (build_backup_envelope lib entries settings session_enc_key pw
          freshSalt freshNonce now).bind
        (fun envelope => load_backup_bundle lib envelope session_enc_key pw) =
        .ok ⟨entries, settings, now⟩ := by
    intro pw hf
    have hbuild : build_backup_envelope lib entries settings session_enc_key pw
        freshSalt freshNonce now =
        .ok ⟨1, now, Option.none, Option.none, lib.b64e freshNonce,
          lib.b64e (lib.aeadEnc session_enc_key freshNonce
            (lib.canonJson (lib.dumpBundle ⟨entries, settings, now⟩))),
          "encrypted-only".data⟩ := by
      simp [build_backup_envelope, hk, hf, encrypt_json, Except.instMonad, Except.bind,
        Except.pure]
    rw [hbuild]
    exact hload _ pw session_enc_key (by simp [_resolve_import_key]) hk (hb64 _) (hb64 _)
  cases export_password with
  | none => exact hplain Option.none rfl
  | some p =>
    by_cases hne : p = []
    · subst hne
      exact hplain (Option.some []) rfl
    · have hlen := hpwlen p rfl hne
      have ht : truthyStr (Option.some p) = true := by
        simp [truthyStr, hne]
      have hbuild : build_backup_envelope lib entries settings session_enc_key
          (Option.some p) freshSalt freshNonce now =
          .ok ⟨1, now, Option.some DEFAULT_ARGON2_PARAMS, Option.some (lib.b64e freshSalt),
            lib.b64e freshNonce,
            lib.b64e (lib.aeadEnc
              (lib.hkdf (lib.kdfRaw p freshSalt DEFAULT_ARGON2_PARAMS)
                "vault/backup_key/v1".data) freshNonce
              (lib.canonJson (lib.dumpBundle ⟨entries, settings, now⟩))),
            "encrypted-only".data⟩ := by
        simp [build_backup_envelope, hk, ht, derive_master_key_raw, hlen.1, hlen.2, hsalt,
          derive_backup_key, hkdf32, encrypt_json, hhk32, Except.instMonad, Except.bind,
          Except.pure]
      rw [hbuild]
      refine hload _ (Option.some p)
        (lib.hkdf (lib.kdfRaw p freshSalt DEFAULT_ARGON2_PARAMS) "vault/backup_key/v1".data)
        ?_ (hhk32 _ _) (hb64 _) (hb64 _)
      simp [_resolve_import_key, ht, _b64decode, hb64, derive_master_key_raw,
        hlen.1, hlen.2, hsalt, derive_backup_key, hkdf32, Except.instMonad, Except.bind,
        Except.pure]

/-- Witness for `C3_backup_roundtrip`: a concrete one-entry bundle with no
export password round-trips through a model library whose AEAD, base64 and
codec satisfy the hypothesised round trips. -/
theorem C3_backup_roundtrip_witness :
    ((build_backup_envelope
        (⟨fun _ _ _ => List.replicate 32 0, fun _ _ => List.replicate 32 0,
          fun _ _ p => p, fun _ _ c => Option.some c,
          fun _ => [], fun _ => Option.some [],
          fun _ => Option.some
            (⟨[⟨"i".data, "t".data, Option.none, "u".data, "p".data, Option.none, [],
              false, 0⟩], ⟨5, 15, true⟩, 0⟩ : BundleM),
          fun b => b, fun b => Option.some b,
          fun b => b, fun b => Option.some b⟩ : BackupLib BundleM Bytes)
        [⟨"i".data, "t".data, Option.none, "u".data, "p".data, Option.none, [], false, 0⟩]
        ⟨5, 15, true⟩ (List.replicate 32 0) Option.none (List.replicate 16 0)
        (List.replicate 12 0) 0).bind
      (fun envelope => load_backup_bundle
        (⟨fun _ _ _ => List.replicate 32 0, fun _ _ => List.replicate 32 0,
          fun _ _ p => p, fun _ _ c => Option.some c,
          fun _ => [], fun _ => Option.some [],
          fun _ => Option.some
            (⟨[⟨"i".data, "t".data, Option.none, "u".data, "p".data, Option.none, [],
              false, 0⟩], ⟨5, 15, true⟩, 0⟩ : BundleM),
          fun b => b, fun b => Option.some b,
          fun b => b, fun b => Option.some b⟩ : BackupLib BundleM Bytes)
        envelope (List.replicate 32 0) Option.none)) =
      .ok ⟨[⟨"i".data, "t".data, Option.none, "u".data, "p".data, Option.none, [],
        false, 0⟩], ⟨5, 15, true⟩, 0⟩ :=
  C3_backup_roundtrip
    (⟨fun _ _ _ => List.replicate 32 0, fun _ _ => List.replicate 32 0,
      fun _ _ p => p, fun _ _ c => Option.some c,
      fun _ => [], fun _ => Option.some [],
      fun _ => Option.some
        (⟨[⟨"i".data, "t".data, Option.none, "u".data, "p".data, Option.none, [],
          false, 0⟩], ⟨5, 15, true⟩, 0⟩ : BundleM),
      fun b => b, fun b => Option.some b,
      fun b => b, fun b => Option.some b⟩ : BackupLib BundleM Bytes)
    [⟨"i".data, "t".data, Option.none, "u".data, "p".data, Option.none, [], false, 0⟩]
    ⟨5, 15, true⟩ (List.replicate 32 0) Option.none (List.replicate 16 0)
    (List.replicate 12 0) 0
    (by decide) (fun _ _ _ => rfl) (fun _ _ => rfl)
    (fun _ _ _ => rfl) (fun _ => rfl) (by decide) (by decide)
    (fun p hp => Option.noConfusion hp) rfl rfl

end Vault
